import Mathlib

/-
Verification of the dot multi-repository orchestrator.

This file gives a shallow embedding, in Lean 4, of the parts of the dot
source (src/error.rs, src/git_operations.rs, src/atomic.rs, src/index.rs,
src/repository.rs) that the specification's claims are about, and proves
or refutes each claim against that embedding.

Modelling conventions:
- Rust `Result<T, E>` becomes `Except E T`.
- Machine integers in the MD5 computation become `Nat` with explicit
  `% 4294967296` reductions.
- Stateful code becomes explicit state passing; the externally observable
  actions of a function (file writes, git calls, remote-hosting API calls)
  are returned as an explicit event list so that claims about which
  actions happen, and in which order, are statable.
- External collaborators (git2, the filesystem, the GitHub API) are
  modelled as fields of an explicit world state, with failure injection
  where the source can observe a failure.
-/

set_option maxRecDepth 100000

namespace Dot

/-! ## Error types, from src/error.rs -/

/-- Mirrors `IndexError` in src/error.rs (payloads of external error types
are modelled as their display strings). -/
inductive IndexError where
  | noDefaultOrganization : IndexError
  | gitHubTokenNotFound : IndexError
  | gitHubError (msg : String) : IndexError
  | projectAlreadyExists (key : String) : IndexError
  | ioError (msg : String) : IndexError
  | jsonError (msg : String) : IndexError
deriving DecidableEq, Repr

/-- Mirrors `RepositoryError` in src/error.rs (the `ConfigError` variant is
omitted: no embedded code constructs it). -/
inductive RepositoryError where
  | gitNotFound : RepositoryError
  | invalidRemoteUrl : RepositoryError
  | projectAlreadyExists (key : String) : RepositoryError
  | gitError (msg : String) : RepositoryError
  | ioError (msg : String) : RepositoryError
  | atomicOperationFailed : RepositoryError
  | indexError (e : IndexError) : RepositoryError
deriving DecidableEq, Repr

/-- Mirrors `OperationError` in src/error.rs; `AtomicOperationFailed`
carries the failed operation's description, the boxed original error and
the count of completed (reverted) operations. -/
inductive OperationError where
  | executionFailed (message : String) : OperationError
  | rollbackFailed (message : String) : OperationError
  | atomicOperationFailed (failed_operation : String)
      (original_error : OperationError) (completed_count : Nat) : OperationError
  | gitError (message : String) : OperationError
  | ioError (message : String) : OperationError
deriving DecidableEq, Repr

instance : DecidableEq (Except OperationError Unit) := fun a b =>
  match a, b with
  | Except.ok (), Except.ok () => isTrue rfl
  | Except.ok (), Except.error _ => isFalse (fun h => Except.noConfusion h)
  | Except.error _, Except.ok () => isFalse (fun h => Except.noConfusion h)
  | Except.error e, Except.error f =>
    if h : e = f then isTrue (by rw [h]) else
      isFalse (fun hc => h (Except.error.inj hc))

instance : DecidableEq (Except IndexError Unit) := fun a b =>
  match a, b with
  | Except.ok (), Except.ok () => isTrue rfl
  | Except.ok (), Except.error _ => isFalse (fun h => Except.noConfusion h)
  | Except.error _, Except.ok () => isFalse (fun h => Except.noConfusion h)
  | Except.error e, Except.error f =>
    if h : e = f then isTrue (by rw [h]) else
      isFalse (fun hc => h (Except.error.inj hc))

instance : DecidableEq (Except RepositoryError Unit) := fun a b =>
  match a, b with
  | Except.ok (), Except.ok () => isTrue rfl
  | Except.ok (), Except.error _ => isFalse (fun h => Except.noConfusion h)
  | Except.error _, Except.ok () => isFalse (fun h => Except.noConfusion h)
  | Except.error e, Except.error f =>
    if h : e = f then isTrue (by rw [h]) else
      isFalse (fun hc => h (Except.error.inj hc))

/-! ## Repository key derivation, from src/git_operations.rs

`GitOperations::generate_base_key` (lines 49-70): take the part of the URL
after the last `@` if there is one, otherwise strip a leading `https://`
or `http://`; then strip a `.git` suffix; reject an empty result.
`GitOperations::generate_repository_key` (lines 39-46): append
`/<directory>` when a directory is given. -/

/-- Portion of the character list strictly after its last `@`, if any:
models `remote_url.rfind('@')` followed by slicing at `at_pos + 1`. -/
def afterLastAt : List Char → Option (List Char)
  | [] => none
  | c :: rest =>
    match afterLastAt rest with
    | some r => some r
    | none => if c = '@' then some rest else none

/-- Models `str::strip_prefix`: drops `p` from the front of `l` when `l`
starts with `p`. -/
def dropFront : List Char → List Char → Option (List Char)
  | [], l => some l
  | _ :: _, [] => none
  | p :: ps, c :: cs => if p = c then dropFront ps cs else none

/-- Models `str::strip_suffix`: drops `s` from the back of `l` when `l`
ends with `s`. -/
def dropBack (s l : List Char) : Option (List Char) :=
  match dropFront s.reverse l.reverse with
  | some r => some r.reverse
  | none => none

/-- Embeds `GitOperations::generate_base_key` (src/git_operations.rs 49-70). -/
def generate_base_key (remote_url : String) : Except RepositoryError String :=
  let cs := remote_url.toList
  let after_at :=
    match afterLastAt cs with
    | some r => r
    | none =>
      match dropFront ("https://").toList cs with
      | some r => r
      | none =>
        match dropFront ("http://").toList cs with
        | some r => r
        | none => cs
  let without_git :=
    match dropBack (".git").toList after_at with
    | some r => r
    | none => after_at
  if without_git.isEmpty then Except.error RepositoryError.invalidRemoteUrl
  else Except.ok (String.mk without_git)

/-- Embeds `GitOperations::generate_repository_key`
(src/git_operations.rs 39-46). -/
def generate_repository_key (remote_url : String) (directory : Option String) :
    Except RepositoryError String :=
  match generate_base_key remote_url with
  | Except.error e => Except.error e
  | Except.ok base_key =>
    match directory with
    | some dir => Except.ok (base_key ++ ("/") ++ dir)
    | none => Except.ok base_key

/-! ## MD5, for the remote hidden-repository name

Both `RepositoryManager::create_hidden_repository` (src/repository.rs 285)
and `RepositoryManager::rollback_hidden_repository` (src/repository.rs 361)
compute the remote repository name as
`format!("{:x}", md5::compute(repository_key.as_bytes()))`, the lowercase
hexadecimal rendering of the MD5 digest of the key's UTF-8 bytes. The
md5 crate is external; MD5 itself (RFC 1321) is embedded here so that the
name computation is executable. -/

/-- Reduce to a 32-bit word. -/
def w32 (x : Nat) : Nat := x % 4294967296

/-- 32-bit addition. -/
def wadd (a b : Nat) : Nat := (a + b) % 4294967296

/-- 32-bit complement (correct for arguments below 2^32). -/
def wnot (x : Nat) : Nat := 4294967295 - x

/-- 32-bit left rotation (for arguments below 2^32 and 0 < n < 32). -/
def rotl32 (x n : Nat) : Nat :=
  ((x <<< n) % 4294967296) ||| (x >>> (32 - n))

/-- UTF-8 encoding of one character, as byte values:
models `str::as_bytes` together with `String.toList`. -/
def utf8EncodeChar (c : Char) : List Nat :=
  let n := c.toNat
  if n < 128 then [n]
  else if n < 2048 then [192 + n / 64, 128 + n % 64]
  else if n < 65536 then [224 + n / 4096, 128 + (n / 64) % 64, 128 + n % 64]
  else [240 + n / 262144, 128 + (n / 4096) % 64, 128 + (n / 64) % 64, 128 + n % 64]

/-- UTF-8 bytes of a string. -/
def strBytes (s : String) : List Nat :=
  s.toList.flatMap utf8EncodeChar

/-- The 64 MD5 sine-derived constants of RFC 1321. -/
def md5K : List Nat :=
  [3614090360, 3905402710, 606105819, 3250441966, 4118548399, 1200080426, 2821735955, 4249261313,
   1770035416, 2336552879, 4294925233, 2304563134, 1804603682, 4254626195, 2792965006, 1236535329,
   4129170786, 3225465664, 643717713, 3921069994, 3593408605, 38016083, 3634488961, 3889429448,
   568446438, 3275163606, 4107603335, 1163531501, 2850285829, 4243563512, 1735328473, 2368359562,
   4294588738, 2272392833, 1839030562, 4259657740, 2763975236, 1272893353, 4139469664, 3200236656,
   681279174, 3936430074, 3572445317, 76029189, 3654602809, 3873151461, 530742520, 3299628645,
   4096336452, 1126891415, 2878612391, 4237533241, 1700485571, 2399980690, 4293915773, 2240044497,
   1873313359, 4264355552, 2734768916, 1309151649, 4149444226, 3174756917, 718787259, 3951481745]

/-- The 64 MD5 per-step left-rotation amounts of RFC 1321. -/
def md5S : List Nat :=
  [7, 12, 17, 22, 7, 12, 17, 22, 7, 12, 17, 22, 7, 12, 17, 22,
   5, 9, 14, 20, 5, 9, 14, 20, 5, 9, 14, 20, 5, 9, 14, 20,
   4, 11, 16, 23, 4, 11, 16, 23, 4, 11, 16, 23, 4, 11, 16, 23,
   6, 10, 15, 21, 6, 10, 15, 21, 6, 10, 15, 21, 6, 10, 15, 21]

/-- MD5 round function (step i, on words b c d). -/
def md5F (i b c d : Nat) : Nat :=
  if i < 16 then (b &&& c) ||| (wnot b &&& d)
  else if i < 32 then (d &&& b) ||| (wnot d &&& c)
  else if i < 48 then b ^^^ c ^^^ d
  else c ^^^ (b ||| wnot d)

/-- MD5 message-word index for step i. -/
def md5G (i : Nat) : Nat :=
  if i < 16 then i
  else if i < 32 then (5 * i + 1) % 16
  else if i < 48 then (3 * i + 5) % 16
  else (7 * i) % 16

/-- One MD5 step: rotate the accumulator. -/
def md5Step (M : List Nat) (st : Nat × Nat × Nat × Nat) (i : Nat) :
    Nat × Nat × Nat × Nat :=
  let a := st.1
  let b := st.2.1
  let c := st.2.2.1
  let d := st.2.2.2
  let f := wadd (wadd (wadd a (md5F i b c d)) (md5K.getD i 0)) (M.getD (md5G i) 0)
  (d, wadd b (rotl32 f (md5S.getD i 0)), b, c)

/-- The 16 little-endian 32-bit words of one 64-byte block. -/
def wordsOfBlock (blk : List Nat) : List Nat :=
  (List.range 16).map fun j =>
    blk.getD (4 * j) 0 + 256 * blk.getD (4 * j + 1) 0 +
      65536 * blk.getD (4 * j + 2) 0 + 16777216 * blk.getD (4 * j + 3) 0

/-- Process one 64-byte block into the running state. -/
def md5Block (st : Nat × Nat × Nat × Nat) (blk : List Nat) :
    Nat × Nat × Nat × Nat :=
  let M := wordsOfBlock blk
  let r := (List.range 64).foldl (md5Step M) st
  (wadd st.1 r.1, wadd st.2.1 r.2.1, wadd st.2.2.1 r.2.2.1, wadd st.2.2.2 r.2.2.2)

/-- MD5 padding: a 0x80 byte, zeros to 56 mod 64, then the bit length as
eight little-endian bytes. -/
def padMsg (m : List Nat) : List Nat :=
  let len := m.length
  let z := (120 - ((len + 1) % 64)) % 64
  m ++ [128] ++ List.replicate z 0 ++
    ((List.range 8).map fun i => ((len * 8) >>> (8 * i)) % 256)

/-- Split into 64-byte blocks (fuel-based so that the definition is
structural and kernel-reducible; the fuel `l.length` always suffices). -/
def toBlocksF : Nat → List Nat → List (List Nat)
  | 0, _ => []
  | _, [] => []
  | fuel + 1, l => l.take 64 :: toBlocksF fuel (l.drop 64)

/-- Split a byte list into 64-byte blocks. -/
def toBlocks (l : List Nat) : List (List Nat) := toBlocksF l.length l

/-- The MD5 initial state. -/
def md5Init : Nat × Nat × Nat × Nat := (1732584193, 4023233417, 2562383102, 271733878)

/-- The four little-endian bytes of a 32-bit word. -/
def wordLEBytes (w : Nat) : List Nat :=
  [w % 256, (w >>> 8) % 256, (w >>> 16) % 256, (w >>> 24) % 256]

/-- The sixteen digest bytes of a final MD5 state. -/
def md5Final (st : Nat × Nat × Nat × Nat) : List Nat :=
  wordLEBytes st.1 ++ wordLEBytes st.2.1 ++ wordLEBytes st.2.2.1 ++ wordLEBytes st.2.2.2

/-- The MD5 digest (16 bytes) of a byte list. -/
def md5Bytes (msg : List Nat) : List Nat :=
  md5Final ((toBlocks (padMsg msg)).foldl md5Block md5Init)

/-- Lowercase hexadecimal digit. -/
def hexDigitChar (n : Nat) : Char :=
  if n < 10 then Char.ofNat (48 + n) else Char.ofNat (87 + n)

/-- Two lowercase hexadecimal digits of a byte. -/
def byteToHex (b : Nat) : List Char :=
  [hexDigitChar (b / 16 % 16), hexDigitChar (b % 16)]

/-- Lowercase hexadecimal MD5 digest of a string's UTF-8 bytes: models
`format!("{:x}", md5::compute(s.as_bytes()))`. -/
def md5Hex (s : String) : String :=
  String.mk (List.flatten ((md5Bytes (strBytes s)).map byteToHex))

/-- RFC 1321 test vector: sanity check that the MD5 embedding is MD5. -/
example : md5Hex ("") = ("d41d8cd98f00b204e9800998ecf8427e") := by decide

/-- RFC 1321 test vector: sanity check that the MD5 embedding is MD5. -/
example : md5Hex ("abc") = ("900150983cd24fb0d6963f7d28e17f72") := by decide

/-- Remote hidden-repository name as computed by the creation path,
`RepositoryManager::create_hidden_repository` (src/repository.rs 285):
`format!("{:x}", md5::compute(repository_key.as_bytes()))`. -/
def create_remote_repo_name (repository_key : String) : String :=
  md5Hex repository_key

/-- Remote hidden-repository name as computed by the rollback path,
`RepositoryManager::rollback_hidden_repository` (src/repository.rs 361):
`format!("{:x}", md5::compute(repository_key.as_bytes()))`. -/
def rollback_remote_repo_name (repository_key : String) : String :=
  md5Hex repository_key

/-- Whether a character is a lowercase hexadecimal digit. -/
def isLowerHexChar (c : Char) : Bool :=
  (("0123456789abcdef").toList).contains c

/-- Whether every character of a string is a lowercase hexadecimal digit. -/
def isLowerHexStr (s : String) : Bool :=
  s.toList.all isLowerHexChar

/-! ## The transaction engine, from src/atomic.rs

An operation is modelled by its observable behaviour for one transaction:
the outcome its `execute` returns, the outcome its `rollback` returns, and
its `description` (the `Operation` trait, src/atomic.rs 7-12). The engine
`AtomicOperations::execute` (src/atomic.rs 31-66) is embedded as a
function that also returns the list of `execute`/`rollback` invocations it
performs, in order, so that claims about which calls happen are statable.
-/

/-- The observable behaviour of one `Operation` (src/atomic.rs 7-12). -/
structure OpSpec where
  execResult : Except OperationError Unit
  rollbackResult : Except OperationError Unit
  description : String
deriving DecidableEq, Repr

/-- Placeholder operation for out-of-range list indexing in statements. -/
def dummyOp : OpSpec := { execResult := Except.ok (), rollbackResult := Except.ok (), description := ("") }

/-- One engine-level call: `execCall i ok` records that operation `i`'s
execute was invoked and whether it succeeded; `rollbackCall i ok` records
that operation `i`'s rollback was invoked and whether it succeeded. -/
inductive EngineEvent where
  | execCall (i : Nat) (ok : Bool) : EngineEvent
  | rollbackCall (i : Nat) (ok : Bool) : EngineEvent
deriving DecidableEq, Repr

/-- Whether an `Except` outcome is a success. -/
def isOkB : Except OperationError Unit → Bool
  | Except.ok _ => true
  | Except.error _ => false

/-- Atomic-mode loop of `AtomicOperations::execute` (src/atomic.rs 42-65):
run operations in order, collecting completed ones; on the first failure,
roll back every completed operation in reverse completion order (each
rollback attempted regardless of earlier rollback failures, whose errors
are only logged) and return `AtomicOperationFailed` with the failed
operation's description, the original error, and the completed count.
`i` is the index of the next operation; `completed` collects the completed
operations with their indices. -/
def executeAtomicGo : List OpSpec → Nat → List (Nat × OpSpec) →
    List EngineEvent × Except OperationError Unit
  | [], _, _ => ([], Except.ok ())
  | op :: rest, i, completed =>
    match op.execResult with
    | Except.ok _ =>
      (EngineEvent.execCall i true ::
        (executeAtomicGo rest (i + 1) (completed ++ [(i, op)])).1,
       (executeAtomicGo rest (i + 1) (completed ++ [(i, op)])).2)
    | Except.error e =>
      (EngineEvent.execCall i false ::
        completed.reverse.map (fun p => EngineEvent.rollbackCall p.1 (isOkB p.2.rollbackResult)),
       Except.error (OperationError.atomicOperationFailed op.description e completed.length))

/-- Best-effort loop of `AtomicOperations::execute` (src/atomic.rs 32-40):
run every operation's execute in order; failures are only logged. -/
def executeBestEffortGo : List OpSpec → Nat → List EngineEvent
  | [], _ => []
  | op :: rest, i =>
    EngineEvent.execCall i (isOkB op.execResult) :: executeBestEffortGo rest (i + 1)

/-- The `AtomicOperations` struct (src/atomic.rs 14-17). -/
structure AtomicOperations where
  operations : List OpSpec
  atomic : Bool
deriving Repr

/-- Mirrors `AtomicOperations::new(no_atomic)` (src/atomic.rs 20-25), with
the operation list supplied up front in place of `add_operation` pushes. -/
def AtomicOperations.new (no_atomic : Bool) (ops : List OpSpec) : AtomicOperations :=
  { operations := ops, atomic := !no_atomic }

/-- Embeds `AtomicOperations::execute` (src/atomic.rs 31-66), returning
the engine's call trace together with its result. -/
def AtomicOperations.execute (self : AtomicOperations) :
    List EngineEvent × Except OperationError Unit :=
  if self.atomic then executeAtomicGo self.operations 0 []
  else (executeBestEffortGo self.operations 0, Except.ok ())

/-- Indices of the rollback invocations of a trace, in trace order. -/
def rollbackIndices (tr : List EngineEvent) : List Nat :=
  tr.filterMap fun e =>
    match e with
    | EngineEvent.rollbackCall j _ => some j
    | EngineEvent.execCall _ _ => none

/-! ## Operation rollbacks, from src/atomic.rs

The git2 repository that `AddOperation::rollback` manipulates is modelled
by the tree of its HEAD commit (none when no commit exists, in which case
`repo.head()` fails) and the contents of its index. -/

/-- State of one on-disk git repository, as seen by the Add rollback. -/
structure GitRepoState where
  headTree : Option String
  indexTree : String
deriving DecidableEq, Repr

/-- Embeds `AddOperation::rollback` (src/atomic.rs 115-129): if nothing
was staged, do nothing and succeed; otherwise open the repository, peel
HEAD to a commit (this fails with a git error when no commit exists) and
reset the index to that commit's tree. -/
def AddOperation.rollback (staged_files : List String) (repo : GitRepoState) :
    GitRepoState × Except OperationError Unit :=
  if staged_files.isEmpty then (repo, Except.ok ())
  else
    match repo.headTree with
    | none => (repo, Except.error (OperationError.gitError ("reference not found")))
    | some t => ({ repo with indexTree := t }, Except.ok ())

/-- Embeds `PushOperation::rollback` (src/atomic.rs 216-228): reads only
the recorded `pushed` flag and touches no repository or remote state; if a
push occurred it fails with `RollbackFailed`, otherwise it is a no-op
success. -/
def PushOperation.rollback (pushed : Bool) : Except OperationError Unit :=
  if pushed then
    Except.error (OperationError.rollbackFailed ("Cannot rollback push operation automatically"))
  else Except.ok ()

/-! ## The project index, from src/index.rs

`IndexData.projects` is a `HashMap<String, ProjectRegistration>`; it is
modelled as an association list with unique keys (insertion appends).
The `created_at` timestamp is modelled as a number. The registration
struct is the one `RepositoryManager::create_hidden_repository`
(src/repository.rs 328-336) constructs; the declaration in src/index.rs
lags behind it by one field (`repository_name`), which is included here
because the orchestrator code reads and writes it.

The git repository that holds the index document is modelled by whether
it has a HEAD commit (`save_and_push_index` requires a parent commit) and
a count of the commits made to it. The externally observable actions of
the index code are returned as `IndexEvent` lists; the vocabulary includes
a `pushIndex` event so that the absence of any push is statable. -/

/-- Mirrors `ProjectRegistration` as constructed in src/repository.rs. -/
structure ProjectRegistration where
  repository_key : String
  repository_name : String
  git_user : String
  project_git_path : String
  project_disk_path : String
  hidden_directory : String
  created_at : Nat
deriving DecidableEq, Repr

/-- Mirrors `IndexData` (src/index.rs 19-22): the key-to-registration map,
as an association list. -/
structure IndexData where
  projects : List (String × ProjectRegistration)
deriving DecidableEq, Repr

/-- Models `HashMap::contains_key`. -/
def containsKey (l : List (String × ProjectRegistration)) (k : String) : Bool :=
  l.any fun p => p.1 == k

/-- Models `HashMap::insert` for a key that is not present. -/
def insertProject (l : List (String × ProjectRegistration)) (k : String)
    (reg : ProjectRegistration) : List (String × ProjectRegistration) :=
  l ++ [(k, reg)]

/-- Git state of the local index repository clone. -/
structure IndexRepoGit where
  hasHead : Bool
  commits : Nat
deriving DecidableEq, Repr

/-- Mirrors the `IndexManager` struct (src/index.rs 32-37); the octocrab
client and local path play no role in the embedded operations. -/
structure IndexManager where
  remote_organization : String
  index_data : IndexData
  git : IndexRepoGit
deriving DecidableEq, Repr

/-- Externally observable actions of the index code. `pushIndex` is part
of the vocabulary but is never emitted by the embedded source: no code
path of src/index.rs pushes. -/
inductive IndexEvent where
  | writeIndexFile (content : String) : IndexEvent
  | stagePath (path : String) : IndexEvent
  | commitIndex (message : String) : IndexEvent
  | pushIndex (branch : String) : IndexEvent
deriving DecidableEq, Repr

/-- Rendering of one registration for the index document (stands in for
serde_json serialization of `ProjectRegistration`; the exact text is not
load-bearing for any claim). -/
def serializeRegistration (r : ProjectRegistration) : String :=
  r.repository_key ++ ("|") ++ r.repository_name ++ ("|") ++ r.git_user ++ ("|") ++
    r.project_git_path ++ ("|") ++ r.project_disk_path ++ ("|") ++ r.hidden_directory

/-- Rendering of the whole index document (stands in for
`serde_json::to_string_pretty(&self.index_data)`). -/
def serializeIndex (d : IndexData) : String :=
  String.intercalate ("\n") (d.projects.map fun p => p.1 ++ ("=") ++ serializeRegistration p.2)

/-- Embeds `IndexManager::save_and_push_index` (src/index.rs 195-237):
serialize the full document, write it to index.json, stage index.json,
and commit on top of the current HEAD commit; the commit step fails when
the repository has no HEAD commit. Despite the function's name and its
`// Git add, commit, push` comment, the body performs no push. -/
def save_and_push_index (m : IndexManager) :
    IndexManager × List IndexEvent × Except IndexError Unit :=
  let content := serializeIndex m.index_data
  let evs := [IndexEvent.writeIndexFile content, IndexEvent.stagePath ("index.json")]
  if m.git.hasHead then
    ({ m with git := { m.git with commits := m.git.commits + 1 } },
     evs ++ [IndexEvent.commitIndex ("Update index")], Except.ok ())
  else
    (m, evs, Except.error (IndexError.ioError ("No target")))

/-- Embeds `IndexManager::register_project` (src/index.rs 166-182): fail
with `ProjectAlreadyExists` when the key is present (before any other
action); otherwise insert into the in-memory map and run
`save_and_push_index`, whose failure propagates but leaves the insertion
in place. -/
def register_project (m : IndexManager) (registration : ProjectRegistration) :
    IndexManager × List IndexEvent × Except IndexError Unit :=
  if containsKey m.index_data.projects registration.repository_key then
    (m, [], Except.error (IndexError.projectAlreadyExists registration.repository_key))
  else
    let m1 : IndexManager :=
      { m with index_data :=
          { projects := insertProject m.index_data.projects registration.repository_key registration } }
    let r := save_and_push_index m1
    (r.1, r.2.1, r.2.2)

/-- Whether an index event is a push. -/
def isPushEvent : IndexEvent → Bool
  | IndexEvent.pushIndex _ => true
  | _ => false

/-! ## The repository orchestrator, from src/repository.rs

The world state visible to `RepositoryManager::init_project` bundles the
project directory's filesystem (which subdirectories exist, which are git
repositories, their origin remotes), the remote hosting provider (which
remote repositories exist, plus failure injection for creation calls, so
that the rollback paths are reachable), the index manager, and the parent
repository's remote URL and configured git user. Externally observable
actions are returned as `RepoEvent` lists; the vocabulary includes a
generic `writeFile` event so that the absence of any `.gitignore` write is
statable — no embedded code path emits it. -/

/-- World state for the orchestrator. -/
structure World where
  parentGitInitialized : Bool
  parentRemoteUrl : Option String
  gitUser : String
  projectDiskPath : String
  localDirs : List String
  gitInitialized : List String
  origins : List (String × String)
  remoteRepos : List String
  createFailNames : List String
  indexMgr : IndexManager
  now : Nat
deriving DecidableEq, Repr

/-- Externally observable actions of the orchestrator. `writeFile` is part
of the vocabulary but is never emitted by the embedded source: no code
path of src/repository.rs writes a file into the project tree. -/
inductive RepoEvent where
  | createLocalDir (d : String) : RepoEvent
  | removeLocalDir (d : String) : RepoEvent
  | createRemote (org name : String) : RepoEvent
  | deleteRemote (org name : String) : RepoEvent
  | initLocalRepo (d : String) : RepoEvent
  | setRemoteOrigin (d : String) (url : String) : RepoEvent
  | indexEv (e : IndexEvent) : RepoEvent
  | writeFile (path : String) (content : String) : RepoEvent
deriving DecidableEq, Repr

/-- Lift an index failure into `RepositoryError` (the `#[from]` impl). -/
def liftIndexErr : Except IndexError Unit → Except RepositoryError Unit
  | Except.ok _ => Except.ok ()
  | Except.error e => Except.error (RepositoryError.indexError e)

/-- Association-list lookup for the origin remotes of hidden repositories. -/
def lookupStr (l : List (String × String)) (k : String) : Option String :=
  match l.find? (fun p => p.1 == k) with
  | some p => some p.2
  | none => none

/-- Embeds `RepositoryManager::create_hidden_repository`
(src/repository.rs 268-343): record whether the directory pre-existed and
create it if absent; compute the remote name as the MD5 hex digest of the
repository key; ask the hosting provider to create the remote repository
(on failure, delete the directory only when this call created it, and
return the error); initialize the local repository and attach its origin
remote when needed; finally build the registration and register it in the
index (a registration failure propagates). No `.gitignore` is written on
any path. -/
def create_hidden_repository (w : World) (directory repository_key : String) :
    World × List RepoEvent × Except RepositoryError Unit :=
  let dir_existed := w.localDirs.contains directory
  let w1 : World :=
    if dir_existed then w else { w with localDirs := w.localDirs ++ [directory] }
  let evs1 : List RepoEvent :=
    if dir_existed then [] else [RepoEvent.createLocalDir directory]
  let repo_name := md5Hex repository_key
  let org := w.indexMgr.remote_organization
  if w.createFailNames.contains repo_name then
    -- remote creation failed: delete the directory only if newly created
    let w2 : World :=
      if dir_existed then w1
      else { w1 with localDirs := w1.localDirs.filter (fun d => d != directory) }
    let evs2 : List RepoEvent :=
      if dir_existed then [] else [RepoEvent.removeLocalDir directory]
    (w2, evs1 ++ [RepoEvent.createRemote org repo_name] ++ evs2,
     Except.error (RepositoryError.ioError ("failed to create remote repository")))
  else
    let remote_url := ("git@github.com:") ++ org ++ ("/") ++ repo_name ++ (".git")
    let w2 : World :=
      { w1 with remoteRepos :=
          if w1.remoteRepos.contains repo_name then w1.remoteRepos
          else w1.remoteRepos ++ [repo_name] }
    let is_git_repo := w2.gitInitialized.contains directory
    let w3 : World :=
      if is_git_repo then
        if (lookupStr w2.origins directory).isNone then
          { w2 with origins := w2.origins ++ [(directory, remote_url)] }
        else w2
      else
        { w2 with gitInitialized := w2.gitInitialized ++ [directory],
                  origins := w2.origins ++ [(directory, remote_url)] }
    let evs3 : List RepoEvent :=
      if is_git_repo then
        if (lookupStr w2.origins directory).isNone then
          [RepoEvent.setRemoteOrigin directory remote_url]
        else []
      else [RepoEvent.initLocalRepo directory, RepoEvent.setRemoteOrigin directory remote_url]
    match w.parentRemoteUrl with
    | none =>
      -- `self.get_remote_origin(project_path)?` in the registration fails
      (w3, evs1 ++ [RepoEvent.createRemote org repo_name] ++ evs3,
       Except.error RepositoryError.invalidRemoteUrl)
    | some purl =>
      let registration : ProjectRegistration :=
        { repository_key := repository_key, repository_name := repo_name,
          git_user := w.gitUser, project_git_path := purl,
          project_disk_path := w.projectDiskPath, hidden_directory := directory,
          created_at := w.now }
      let rp := register_project w3.indexMgr registration
      ({ w3 with indexMgr := rp.1 },
       evs1 ++ [RepoEvent.createRemote org repo_name] ++ evs3 ++ rp.2.1.map RepoEvent.indexEv,
       liftIndexErr rp.2.2)

/-- Embeds `RepositoryManager::rollback_hidden_repository`
(src/repository.rs 345-371): delete the local directory only when this
transaction created it (and it still exists); then best-effort delete the
remote repository named by the MD5 hex digest of the key (deletion
failures are swallowed). It never touches the index. -/
def rollback_hidden_repository (w : World) (directory repository_key : String)
    (dir_was_created : Bool) : World × List RepoEvent × Except RepositoryError Unit :=
  let w1 : World :=
    if dir_was_created && w.localDirs.contains directory then
      { w with localDirs := w.localDirs.filter (fun d => d != directory) }
    else w
  let evs1 : List RepoEvent :=
    if dir_was_created && w.localDirs.contains directory then
      [RepoEvent.removeLocalDir directory]
    else []
  let repo_name := md5Hex repository_key
  let org := w.indexMgr.remote_organization
  let w2 : World := { w1 with remoteRepos := w1.remoteRepos.filter (fun n => n != repo_name) }
  (w2, evs1 ++ [RepoEvent.deleteRemote org repo_name], Except.ok ())

/-- The key computation loop of `RepositoryManager::init_project`
(src/repository.rs 41-46): one `(directory, repository_key, dir_exists)`
triple per requested directory, with existence checked before any
mutation. -/
def computeRepoKeys (remote_url : String) (dirs : List String) (w : World) :
    Except RepositoryError (List (String × String × Bool)) :=
  match dirs with
  | [] => Except.ok []
  | d :: rest =>
    match generate_repository_key remote_url (some d) with
    | Except.error e => Except.error e
    | Except.ok k =>
      match computeRepoKeys remote_url rest w with
      | Except.error e => Except.error e
      | Except.ok l => Except.ok ((d, k, w.localDirs.contains d) :: l)

/-- The non-atomic branch of `init_project` (src/repository.rs 60-64):
create each hidden repository in order, propagating the first failure. -/
def init_noatomic_go (w : World) (items : List (String × String × Bool)) :
    World × List RepoEvent × Except RepositoryError Unit :=
  match items with
  | [] => (w, [], Except.ok ())
  | (dir, key, _) :: rest =>
    let r := create_hidden_repository w dir key
    match r.2.2 with
    | Except.ok _ =>
      let r2 := init_noatomic_go r.1 rest
      (r2.1, r.2.1 ++ r2.2.1, r2.2.2)
    | Except.error e => (r.1, r.2.1, Except.error e)

/-- Rollback loop of the atomic branch (src/repository.rs 82-91): roll
back each created repository in creation order, with `dir_was_created`
the negation of the recorded pre-existence flag; rollback failures are
logged and swallowed. -/
def rollback_created (w : World) (created : List (String × String × Bool)) :
    World × List RepoEvent :=
  match created with
  | [] => (w, [])
  | (dir, key, existed) :: rest =>
    let r := rollback_hidden_repository w dir key (!existed)
    let r2 := rollback_created r.1 rest
    (r2.1, r.2.1 ++ r2.2)

/-- The atomic branch of `init_project` (src/repository.rs 66-92): create
hidden repositories in order, collecting the completed ones; on the first
failure stop, roll back every completed one, and return
`AtomicOperationFailed`. -/
def init_atomic_go (w : World) (pending created : List (String × String × Bool)) :
    World × List RepoEvent × Except RepositoryError Unit :=
  match pending with
  | [] => (w, [], Except.ok ())
  | (dir, key, existed) :: rest =>
    let r := create_hidden_repository w dir key
    match r.2.2 with
    | Except.ok _ =>
      let r2 := init_atomic_go r.1 rest (created ++ [(dir, key, existed)])
      (r2.1, r.2.1 ++ r2.2.1, r2.2.2)
    | Except.error _ =>
      let rb := rollback_created r.1 created
      (rb.1, r.2.1 ++ rb.2, Except.error RepositoryError.atomicOperationFailed)

/-- Embeds `RepositoryManager::init_project` (src/repository.rs 25-96):
ensure the parent is a git repository; read its origin remote URL (an
absent origin is an error); derive the base key; compute one key per
directory; fail fast with `ProjectAlreadyExists` when any key is already
registered, before any mutation; then honour `skip_hidden`, and run the
non-atomic or atomic creation loop. -/
def init_project (w : World) (directories : List String)
    (skip_hidden no_atomic : Bool) : World × List RepoEvent × Except RepositoryError Unit :=
  let w0 : World :=
    if w.parentGitInitialized then w else { w with parentGitInitialized := true }
  match w0.parentRemoteUrl with
  | none => (w0, [], Except.error RepositoryError.invalidRemoteUrl)
  | some remote_url =>
    match generate_base_key remote_url with
    | Except.error e => (w0, [], Except.error e)
    | Except.ok _ =>
      match computeRepoKeys remote_url directories w0 with
      | Except.error e => (w0, [], Except.error e)
      | Except.ok repo_keys =>
        match repo_keys.find? (fun t => containsKey w0.indexMgr.index_data.projects t.2.1) with
        | some t => (w0, [], Except.error (RepositoryError.projectAlreadyExists t.2.1))
        | none =>
          if skip_hidden then (w0, [], Except.ok ())
          else if no_atomic then init_noatomic_go w0 repo_keys
          else init_atomic_go w0 repo_keys []

/-- Kernel-reducible suffix test on strings. -/
def strEndsWith (s suff : String) : Bool :=
  (dropBack suff.toList s.toList).isSome

/-- Whether an orchestrator event writes a file whose name is
`.gitignore` (the only file the embedded code ever writes is the index
document `index.json`). -/
def isGitignoreWrite : RepoEvent → Bool
  | RepoEvent.writeFile p _ => strEndsWith p (".gitignore")
  | RepoEvent.indexEv (IndexEvent.writeIndexFile _) => strEndsWith ("index.json") (".gitignore")
  | _ => false

/-! ## Concrete scenarios used by the claims -/

/-- Repository key of directory `a` under the scenario parent remote. -/
def keyA : String := ("github.com:acme/widgets/a")

/-- Repository key of directory `b` under the scenario parent remote. -/
def keyB : String := ("github.com:acme/widgets/b")

/-- Scenario world for the atomic `init(["a","b"])` run: fresh parent with
remote `git@github.com:acme/widgets.git`, empty index whose repository has
a HEAD commit, and failure injected into the creation of `b`'s remote
repository (whose name is the MD5 hex digest of `b`'s key). -/
def w2scenario : World :=
  { parentGitInitialized := true,
    parentRemoteUrl := some ("git@github.com:acme/widgets.git"),
    gitUser := ("alice"), projectDiskPath := ("/work/widgets"),
    localDirs := [], gitInitialized := [], origins := [],
    remoteRepos := [], createFailNames := [md5Hex keyB],
    indexMgr := { remote_organization := ("acme"),
                  index_data := { projects := [] },
                  git := { hasHead := true, commits := 0 } },
    now := 0 }

/-- The atomic `init(["a","b"])` run of the C2 scenario. -/
def c2run : World × List RepoEvent × Except RepositoryError Unit :=
  init_project w2scenario [("a"), ("b")] false false

/-- Scenario world for a fully successful atomic `init([".kiro"])` run. -/
def w8scenario : World :=
  { parentGitInitialized := true,
    parentRemoteUrl := some ("git@github.com:acme/widgets.git"),
    gitUser := ("alice"), projectDiskPath := ("/work/widgets"),
    localDirs := [], gitInitialized := [], origins := [],
    remoteRepos := [], createFailNames := [],
    indexMgr := { remote_organization := ("acme"),
                  index_data := { projects := [] },
                  git := { hasHead := true, commits := 0 } },
    now := 0 }

/-- The successful atomic `init([".kiro"])` run of the C8 scenario. -/
def c8run : World × List RepoEvent × Except RepositoryError Unit :=
  init_project w8scenario [(".kiro")] false false

/-- Three-operation list whose third operation fails and whose second
operation has a failing rollback, for exercising the atomic engine. -/
def c1ops : List OpSpec :=
  [{ execResult := Except.ok (), rollbackResult := Except.ok (),
     description := ("Add files to /work/widgets/.kiro") },
   { execResult := Except.ok (),
     rollbackResult := Except.error (OperationError.rollbackFailed ("cannot reset")),
     description := ("Commit to /work/widgets/.kiro") },
   { execResult := Except.error (OperationError.executionFailed ("no upstream")),
     rollbackResult := Except.ok (),
     description := ("Push /work/widgets") }]

/-- Index manager with an empty index whose repository has a HEAD commit. -/
def c7mgr : IndexManager :=
  { remote_organization := ("acme"),
    index_data := { projects := [] },
    git := { hasHead := true, commits := 0 } }

/-- A concrete fresh registration. -/
def c7reg : ProjectRegistration :=
  { repository_key := ("github.com:acme/widgets/.kiro"),
    repository_name := md5Hex ("github.com:acme/widgets/.kiro"),
    git_user := ("alice"),
    project_git_path := ("git@github.com:acme/widgets.git"),
    project_disk_path := ("/work/widgets"),
    hidden_directory := (".kiro"),
    created_at := 0 }

/-- A concrete registration for exercising duplicate registration. -/
def c3reg : ProjectRegistration :=
  { repository_key := ("github.com:acme/tools/.cfg"),
    repository_name := ("n1"),
    git_user := ("bob"),
    project_git_path := ("git@github.com:acme/tools.git"),
    project_disk_path := ("/work/tools"),
    hidden_directory := (".cfg"),
    created_at := 7 }

/-- Index manager whose index already holds `c3reg`'s key. -/
def c3mgr : IndexManager :=
  { remote_organization := ("acme"),
    index_data := { projects := [(("github.com:acme/tools/.cfg"), c3reg)] },
    git := { hasHead := true, commits := 1 } }

/-- Index manager with an empty index whose repository has a HEAD commit. -/
def c3emptyMgr : IndexManager :=
  { remote_organization := ("acme"),
    index_data := { projects := [] },
    git := { hasHead := true, commits := 0 } }

/-! ## Supporting lemmas -/

theorem byteToHex_all_lower (b : Nat) : (byteToHex b).all isLowerHexChar = true := by
  have key : ∀ n, n < 16 → isLowerHexChar (hexDigitChar n) = true := by decide
  have h1 : b / 16 % 16 < 16 := Nat.mod_lt _ (by decide)
  have h2 : b % 16 < 16 := Nat.mod_lt _ (by decide)
  simp [byteToHex, key _ h1, key _ h2]

theorem flatten_hex_all_lower (l : List Nat) :
    (List.flatten (l.map byteToHex)).all isLowerHexChar = true := by
  induction l with
  | nil => rfl
  | cons b t ih => simp [List.all_append, byteToHex_all_lower, ih]

theorem flatten_hex_length (l : List Nat) :
    (List.flatten (l.map byteToHex)).length = 2 * l.length := by
  induction l with
  | nil => rfl
  | cons b t ih => simp [byteToHex, ih]; omega

theorem md5Bytes_length (msg : List Nat) : (md5Bytes msg).length = 16 := by
  simp [md5Bytes, md5Final, wordLEBytes]

/-! ## The claims -/

/-- C4. RepositoryKey derivation is a pure function of the remote URL and
the optional hidden-directory name: `git@github.com:user/repo.git` with
directory `.kiro` yields `github.com:user/repo/.kiro`, the HTTPS URL
`https://github.com/user/repo.git` with no directory yields
`github.com/user/repo`, and the empty URL is rejected with
`InvalidRemoteUrl`. -/
theorem c4_repository_key_derivation :
    generate_repository_key ("git@github.com:user/repo.git") (some (".kiro")) =
      Except.ok ("github.com:user/repo/.kiro") ∧
    generate_repository_key ("https://github.com/user/repo.git") none =
      Except.ok ("github.com/user/repo") ∧
    generate_base_key ("") = Except.error RepositoryError.invalidRemoteUrl :=
  ⟨rfl, rfl, rfl⟩

/-- C9. Push rollback fails exactly when a push occurred: with the
`pushed` flag set it returns the explicit `RollbackFailed` error (and, by
its type, touches no repository or remote state); with the flag clear it
is a no-op success. The two equations cover the whole Boolean domain of
the recorded flag. -/
theorem c9_push_rollback :
    PushOperation.rollback true =
      Except.error (OperationError.rollbackFailed ("Cannot rollback push operation automatically")) ∧
    PushOperation.rollback false = Except.ok () :=
  ⟨rfl, rfl⟩

/-- C6 counterexample. The claim says that when no HEAD commit exists the
Add rollback is a no-op success; but with one staged entry and no HEAD
commit the embedded `AddOperation::rollback` returns an error, because
`repo.head()?` fails in a repository without commits. -/
theorem c6_counterexample :
    (AddOperation.rollback [("f.txt")] { headTree := none, indexTree := ("i0") }).2 ≠
      Except.ok () := by
  decide

/-- C6 amended. Rollback of an Add operation succeeds exactly when nothing
was staged or a HEAD commit exists; when entries were staged and a HEAD
commit exists it resets the repository index to that commit's tree; when
nothing was staged it is a no-op. -/
theorem c6_amended_add_rollback (staged : List String) (repo : GitRepoState) :
    ((AddOperation.rollback staged repo).2 = Except.ok () ↔
      staged = [] ∨ repo.headTree ≠ none) ∧
    (∀ t, repo.headTree = some t → staged ≠ [] →
      AddOperation.rollback staged repo = ({ repo with indexTree := t }, Except.ok ())) ∧
    (staged = [] → AddOperation.rollback staged repo = (repo, Except.ok ())) := by
  refine ⟨?_, ?_, ?_⟩
  · cases staged with
    | nil => simp [AddOperation.rollback]
    | cons s t =>
      cases h : repo.headTree with
      | none => simp [AddOperation.rollback, h]
      | some tr => simp [AddOperation.rollback, h]
  · intro t ht hne
    cases staged with
    | nil => exact absurd rfl hne
    | cons s ts => simp [AddOperation.rollback, ht]
  · intro h
    subst h
    simp [AddOperation.rollback]

/-- C6 witness: the amended theorem applied to one staged file and a
repository whose HEAD commit has tree `t0`. -/
theorem c6_witness :
    AddOperation.rollback [("f.txt")] { headTree := some ("t0"), indexTree := ("i0") } =
      ({ headTree := some ("t0"), indexTree := ("t0") }, Except.ok ()) :=
  (c6_amended_add_rollback [("f.txt")] { headTree := some ("t0"), indexTree := ("i0") }).2.1
    ("t0") rfl (by decide)

/-- C10. The remote hidden-repository name is the lowercase hexadecimal
MD5 digest of the RepositoryKey; the creation path
(src/repository.rs 285) and the rollback path (src/repository.rs 361)
compute it by the same function of the key, so for every key the rollback
path deletes exactly the remote name the creation path created, equal keys
always map to equal remote names, and the name is 32 lowercase hex
digits. -/
theorem c10_remote_name_md5 (k : String) :
    create_remote_repo_name k = rollback_remote_repo_name k ∧
    create_remote_repo_name k = md5Hex k ∧
    isLowerHexStr (create_remote_repo_name k) = true ∧
    (create_remote_repo_name k).length = 32 := by
  refine ⟨rfl, rfl, ?_, ?_⟩
  · show (String.mk (List.flatten ((md5Bytes (strBytes k)).map byteToHex))).toList.all isLowerHexChar = true
    exact flatten_hex_all_lower _
  · show (String.mk (List.flatten ((md5Bytes (strBytes k)).map byteToHex))).length = 32
    rw [show ∀ l : List Char, (String.mk l).length = l.length from fun _ => rfl]
    rw [flatten_hex_length, md5Bytes_length]

/-- C2 counterexample. In the atomic `init(["a","b"])` scenario where
`b`'s remote-repository creation fails after `a` was fully created
(directory, remote repository and index registration), init does return a
failure — but the registration for `a` is still present in the index
afterwards, contradicting the claim that no registration for `a` remains:
`rollback_hidden_repository` never touches the index, and the index has no
removal operation at all. -/
theorem c2_counterexample :
    c2run.2.2 = Except.error RepositoryError.atomicOperationFailed ∧
    containsKey c2run.1.indexMgr.index_data.projects keyA = true := by
  decide

/-- C2 amended. In the same scenario: init returns a failure; the local
directory `a` (created by this invocation) is deleted; the remote
repository for `a` is best-effort deleted; but the registration for `a`
remains in the index. Also, a rollback whose `dir_was_created` flag is
false — the flag recorded for a pre-existing directory — never deletes the
local directory. -/
theorem c2_amended_init_rollback :
    (c2run.2.2 = Except.error RepositoryError.atomicOperationFailed ∧
     c2run.1.localDirs.contains ("a") = false ∧
     RepoEvent.removeLocalDir ("a") ∈ c2run.2.1 ∧
     RepoEvent.deleteRemote ("acme") (md5Hex keyA) ∈ c2run.2.1 ∧
     containsKey c2run.1.indexMgr.index_data.projects keyA = true) ∧
    (∀ (w : World) (d k : String),
      (rollback_hidden_repository w d k false).1.localDirs = w.localDirs) := by
  refine ⟨by decide, ?_⟩
  intro w d k
  simp [rollback_hidden_repository]

/-- C8 counterexample. A fully successful atomic `init([".kiro"])` run on
a fresh parent performs a nonempty sequence of actions, none of which
writes a `.gitignore` file: the embedded `create_hidden_repository` writes
no file into the project tree at all, so no blanket-ignore `.gitignore` is
created or committed, contradicting the claim. -/
theorem c8_counterexample :
    c8run.2.2 = Except.ok () ∧
    c8run.2.1 ≠ [] ∧
    (c8run.2.1.all fun e => !(isGitignoreWrite e)) = true := by
  decide

theorem save_and_push_keeps_data (m : IndexManager) :
    ((save_and_push_index m).1).index_data = m.index_data := by
  simp only [save_and_push_index]
  split <;> rfl

theorem containsKey_insert_self (l : List (String × ProjectRegistration))
    (k : String) (reg : ProjectRegistration) :
    containsKey (insertProject l k reg) k = true := by
  simp [containsKey, insertProject, List.any_append]

/-- C3. For every index state and every registration whose key is already
present, `register_project` fails with `ProjectAlreadyExists` and performs
nothing: the state it returns is the input state and it emits no action.
In particular, after a first call with a fresh key — which leaves the key
present whether or not the commit step succeeded — a second call with the
same registration fails with `ProjectAlreadyExists` and leaves the index
exactly as the first call left it. -/
theorem c3_register_duplicate_rejected (m : IndexManager) (reg : ProjectRegistration) :
    (containsKey m.index_data.projects reg.repository_key = true →
      register_project m reg =
        (m, [], Except.error (IndexError.projectAlreadyExists reg.repository_key))) ∧
    (containsKey m.index_data.projects reg.repository_key = false →
      containsKey ((register_project m reg).1).index_data.projects reg.repository_key = true ∧
      register_project ((register_project m reg).1) reg =
        ((register_project m reg).1, [],
         Except.error (IndexError.projectAlreadyExists reg.repository_key))) := by
  constructor
  · intro h
    simp [register_project, h]
  · intro h
    have hkey : containsKey ((register_project m reg).1).index_data.projects
        reg.repository_key = true := by
      simp only [register_project, h, Bool.false_eq_true, if_false]
      rw [save_and_push_keeps_data]
      exact containsKey_insert_self _ _ _
    refine ⟨hkey, ?_⟩
    generalize hM : (register_project m reg).1 = m1 at hkey ⊢
    simp [register_project, hkey]

/-- C3 witness: the theorem applied to a concrete index already holding
the registration's key (duplicate rejected, nothing emitted, state kept)
and to a concrete empty index (second call after a fresh first call
rejected likewise). -/
theorem c3_witness :
    register_project c3mgr c3reg =
      (c3mgr, [], Except.error (IndexError.projectAlreadyExists c3reg.repository_key)) ∧
    register_project ((register_project c3emptyMgr c3reg).1) c3reg =
      ((register_project c3emptyMgr c3reg).1, [],
       Except.error (IndexError.projectAlreadyExists c3reg.repository_key)) :=
  ⟨(c3_register_duplicate_rejected c3mgr c3reg).1 (by decide),
   ((c3_register_duplicate_rejected c3emptyMgr c3reg).2 (by decide)).2⟩

/-- C7. Registration of a fresh key inserts it, serializes and writes the
document, stages it and commits — but the embedded
`save_and_push_index` never pushes: no call of `register_project`, on any
state, emits a push action for any branch (in particular neither "main"
nor "master"), even though the function's own name and its
`// Git add, commit, push` comment promise one. On the concrete fresh
registration the call succeeds and the trace ends with the local commit,
which therefore is never propagated to the remote. -/
theorem c7_register_commits_but_never_pushes :
    (∀ (m : IndexManager) (reg : ProjectRegistration),
      ((register_project m reg).2.1.all fun e => !(isPushEvent e)) = true) ∧
    (register_project c7mgr c7reg).2.2 = Except.ok () ∧
    IndexEvent.commitIndex ("Update index") ∈ (register_project c7mgr c7reg).2.1 ∧
    IndexEvent.writeIndexFile (serializeIndex ((register_project c7mgr c7reg).1).index_data) ∈
      (register_project c7mgr c7reg).2.1 := by
  refine ⟨?_, by decide, by decide, by decide⟩
  intro m reg
  simp only [register_project]
  split
  · rfl
  · simp only [save_and_push_index]
    split <;> simp [isPushEvent]

theorem rollbackIndices_exec_cons (i : Nat) (b : Bool) (tr : List EngineEvent) :
    rollbackIndices (EngineEvent.execCall i b :: tr) = rollbackIndices tr := rfl

theorem rollbackIndices_rollback_map (l : List (Nat × OpSpec)) (f : Nat × OpSpec → Bool) :
    rollbackIndices (l.map fun p => EngineEvent.rollbackCall p.1 (f p)) = l.map Prod.fst := by
  induction l with
  | nil => rfl
  | cons p t ih => simp only [List.map_cons, rollbackIndices, List.filterMap_cons] at ih ⊢; rw [ih]

theorem rollbackIndices_exec_map (l : List (Nat × OpSpec)) (f : Nat × OpSpec → Bool) :
    rollbackIndices (l.map fun p => EngineEvent.execCall p.1 (f p)) = [] := by
  induction l with
  | nil => rfl
  | cons p t ih => simp only [List.map_cons, rollbackIndices, List.filterMap_cons] at ih ⊢; rw [ih]

theorem executeBestEffortGo_spec (ops : List OpSpec) : ∀ i0 : Nat,
    executeBestEffortGo ops i0 =
      (ops.enumFrom i0).map fun p => EngineEvent.execCall p.1 (isOkB p.2.execResult) := by
  induction ops with
  | nil => intro i0; rfl
  | cons op rest ih => intro i0; simp [executeBestEffortGo, List.enumFrom, ih]

/-- C5. In best-effort mode the engine always returns success, runs every
operation's execute exactly once in list order (the trace is exactly one
execute call per list position, carrying each operation's own outcome,
which may be a logged failure), and never invokes any rollback. -/
theorem c5_best_effort_runs_all (ops : List OpSpec) :
    ((AtomicOperations.new true ops).execute).2 = Except.ok () ∧
    ((AtomicOperations.new true ops).execute).1 =
      ops.enum.map (fun p => EngineEvent.execCall p.1 (isOkB p.2.execResult)) ∧
    rollbackIndices ((AtomicOperations.new true ops).execute).1 = [] := by
  have hexec : (AtomicOperations.new true ops).execute =
      (executeBestEffortGo ops 0, Except.ok ()) := rfl
  rw [hexec]
  refine ⟨rfl, ?_, ?_⟩
  · rw [executeBestEffortGo_spec]
    rfl
  · show rollbackIndices (executeBestEffortGo ops 0) = []
    rw [executeBestEffortGo_spec]
    exact rollbackIndices_exec_map _ _

theorem executeAtomicGo_fail :
    ∀ (ops : List OpSpec) (k : Nat) (e : OperationError) (i0 : Nat)
      (completed : List (Nat × OpSpec)),
      k < ops.length →
      (∀ i, i < k → (ops.getD i dummyOp).execResult = Except.ok ()) →
      (ops.getD k dummyOp).execResult = Except.error e →
      rollbackIndices (executeAtomicGo ops i0 completed).1 =
        (completed.map Prod.fst ++ List.range' i0 k).reverse ∧
      (executeAtomicGo ops i0 completed).2 =
        Except.error (OperationError.atomicOperationFailed
          ((ops.getD k dummyOp).description) e (completed.length + k)) := by
  intro ops
  induction ops with
  | nil =>
    intro k e i0 completed hk
    simp at hk
  | cons op rest ih =>
    intro k e i0 completed hk hsucc hfail
    cases k with
    | zero =>
      have hop : op.execResult = Except.error e := by simpa using hfail
      constructor
      · simp only [executeAtomicGo, hop]
        rw [rollbackIndices_exec_cons, rollbackIndices_rollback_map]
        simp [List.map_reverse]
      · simp only [executeAtomicGo, hop]
        simp
    | succ k' =>
      have hop : op.execResult = Except.ok () := by simpa using hsucc 0 (Nat.succ_pos k')
      have hk' : k' < rest.length := by simpa using hk
      have hs' : ∀ i, i < k' → (rest.getD i dummyOp).execResult = Except.ok () := by
        intro i hi
        simpa using hsucc (i + 1) (Nat.succ_lt_succ hi)
      have hf' : (rest.getD k' dummyOp).execResult = Except.error e := by simpa using hfail
      have IH := ih k' e (i0 + 1) (completed ++ [(i0, op)]) hk' hs' hf'
      constructor
      · simp only [executeAtomicGo, hop]
        rw [rollbackIndices_exec_cons, IH.1]
        simp [List.range'_succ, List.map_append]
      · simp only [executeAtomicGo, hop]
        rw [IH.2]
        simp [List.getD_cons_succ]
        omega

/-- C1. In atomic mode, when every operation before index k succeeds and
operation k fails with error e, the trace's rollback invocations are
exactly the indices k-1, k-2, ..., 0 in that (strictly decreasing) order —
each completed operation rolled back exactly once, operation k itself
never rolled back, each rollback attempted no matter how earlier rollbacks
fared (the operations' rollback outcomes are arbitrary here) — and the
engine returns `AtomicOperationFailed` carrying the failed operation's
description, the original error, and the completed (reverted) count k. -/
theorem c1_atomic_failure_rolls_back (ops : List OpSpec) (k : Nat) (e : OperationError)
    (hk : k < ops.length)
    (hsucc : ∀ i, i < k → (ops.getD i dummyOp).execResult = Except.ok ())
    (hfail : (ops.getD k dummyOp).execResult = Except.error e) :
    rollbackIndices ((AtomicOperations.new false ops).execute).1 = (List.range k).reverse ∧
    ((AtomicOperations.new false ops).execute).2 =
      Except.error (OperationError.atomicOperationFailed
        ((ops.getD k dummyOp).description) e k) := by
  have h := executeAtomicGo_fail ops k e 0 [] hk hsucc hfail
  have hexec : (AtomicOperations.new false ops).execute = executeAtomicGo ops 0 [] := rfl
  rw [hexec]
  refine ⟨?_, ?_⟩
  · rw [h.1]
    simp [List.range_eq_range']
  · rw [h.2]
    simp

/-- C1 witness: the theorem applied to the three-operation list whose
third operation fails and whose second operation has a failing rollback —
both earlier operations are still rolled back, in the order 1 then 0, and
the reported reverted count is 2. -/
theorem c1_witness :
    rollbackIndices ((AtomicOperations.new false c1ops).execute).1 = [1, 0] ∧
    ((AtomicOperations.new false c1ops).execute).2 =
      Except.error (OperationError.atomicOperationFailed
        ("Push /work/widgets") (OperationError.executionFailed ("no upstream")) 2) := by
  have h := c1_atomic_failure_rolls_back c1ops 2 (OperationError.executionFailed ("no upstream"))
    (by decide) (by decide) (by decide)
  exact ⟨h.1.trans (by decide), h.2.trans (by decide)⟩

theorem indexEv_no_gitignore (e : IndexEvent) :
    isGitignoreWrite (RepoEvent.indexEv e) = false := by
  cases e <;> rfl

theorem map_indexEv_no_gitignore (l : List IndexEvent) :
    ((l.map RepoEvent.indexEv).all fun e => !(isGitignoreWrite e)) = true := by
  induction l with
  | nil => rfl
  | cons h t ih => simp [indexEv_no_gitignore, ih]

theorem all_ng_append {l1 l2 : List RepoEvent}
    (h1 : (l1.all fun e => !(isGitignoreWrite e)) = true)
    (h2 : (l2.all fun e => !(isGitignoreWrite e)) = true) :
    ((l1 ++ l2).all fun e => !(isGitignoreWrite e)) = true := by
  rw [List.all_append, h1, h2]
  rfl

theorem all_ng_ite (c : Prop) [Decidable c] {l1 l2 : List RepoEvent}
    (h1 : (l1.all fun e => !(isGitignoreWrite e)) = true)
    (h2 : (l2.all fun e => !(isGitignoreWrite e)) = true) :
    ((if c then l1 else l2).all fun e => !(isGitignoreWrite e)) = true := by
  split <;> assumption

theorem chr_no_gitignore (w : World) (d k : String) :
    ((create_hidden_repository w d k).2.1.all fun e => !(isGitignoreWrite e)) = true := by
  simp only [create_hidden_repository]
  split
  · -- remote creation failed: directory events and the creation attempt
    apply all_ng_append
    · apply all_ng_append
      · exact all_ng_ite _ rfl rfl
      · rfl
    · exact all_ng_ite _ rfl rfl
  · -- remote creation succeeded
    split
    · -- no parent origin URL: registration construction fails
      apply all_ng_append
      · apply all_ng_append
        · exact all_ng_ite _ rfl rfl
        · rfl
      · exact all_ng_ite _ (all_ng_ite _ rfl rfl) rfl
    · -- registration path: index events are mapped in
      apply all_ng_append
      · apply all_ng_append
        · apply all_ng_append
          · exact all_ng_ite _ rfl rfl
          · rfl
        · exact all_ng_ite _ (all_ng_ite _ rfl rfl) rfl
      · exact map_indexEv_no_gitignore _

theorem rhr_no_gitignore (w : World) (d k : String) (b : Bool) :
    ((rollback_hidden_repository w d k b).2.1.all fun e => !(isGitignoreWrite e)) = true := by
  simp only [rollback_hidden_repository]
  split <;> simp [isGitignoreWrite]

theorem rollback_created_no_gitignore :
    ∀ (created : List (String × String × Bool)) (w : World),
      ((rollback_created w created).2.all fun e => !(isGitignoreWrite e)) = true := by
  intro created
  induction created with
  | nil => intro w; rfl
  | cons t rest ih =>
    intro w
    obtain ⟨d, k, ex⟩ := t
    simp only [rollback_created, List.all_append]
    rw [rhr_no_gitignore, ih]
    rfl

theorem init_atomic_go_no_gitignore :
    ∀ (pending : List (String × String × Bool)) (w : World)
      (created : List (String × String × Bool)),
      ((init_atomic_go w pending created).2.1.all fun e => !(isGitignoreWrite e)) = true := by
  intro pending
  induction pending with
  | nil => intro w created; rfl
  | cons t rest ih =>
    intro w created
    obtain ⟨d, k, ex⟩ := t
    simp only [init_atomic_go]
    split
    · simp only [List.all_append]
      rw [chr_no_gitignore, ih]
      rfl
    · simp only [List.all_append]
      rw [chr_no_gitignore, rollback_created_no_gitignore]
      rfl

theorem init_noatomic_go_no_gitignore :
    ∀ (items : List (String × String × Bool)) (w : World),
      ((init_noatomic_go w items).2.1.all fun e => !(isGitignoreWrite e)) = true := by
  intro items
  induction items with
  | nil => intro w; rfl
  | cons t rest ih =>
    intro w
    obtain ⟨d, k, ex⟩ := t
    simp only [init_noatomic_go]
    split
    · simp only [List.all_append]
      rw [chr_no_gitignore, ih]
      rfl
    · exact chr_no_gitignore _ _ _

/-- C8 amended. No run of init writes any `.gitignore` file: for every
world, directory list and flag combination, every action in the trace of
`init_project` is something other than a `.gitignore` write (the only file
the code writes is the index document), so nothing excludes the hidden
directories' content from the parent repository's history. -/
theorem c8_amended_no_gitignore_written (w : World) (dirs : List String)
    (skip_hidden no_atomic : Bool) :
    ((init_project w dirs skip_hidden no_atomic).2.1.all fun e => !(isGitignoreWrite e)) = true := by
  simp only [init_project]
  split
  · rfl
  · split
    · rfl
    · split
      · rfl
      · split
        · rfl
        · split
          · rfl
          · split
            · exact init_noatomic_go_no_gitignore _ _
            · exact init_atomic_go_no_gitignore _ _ _

end Dot
